import Mathlib

/-!
Shallow embedding of the violation-cause diagnosis subsystem of beartype,
translated from `beartype/_decor/_error/_errorsleuth.py` (class `CauseSleuth`).

The collaborator modules that `_errorsleuth.py` imports (the sign utilities
`is_hint_pep`, `get_hint_pep_sign`, `get_hint_pep_args`, `is_hint_pep_args`,
the ignorability tester `is_hint_ignorable`, the normalizer
`sanify_hint_child`, the sign sets `HINT_SIGNS_ORIGIN_ISINSTANCEABLE` and
`HINT_SIGNS_SUPPORTED_DEEP`, the dispatch table
`PEP_HINT_SIGN_TO_GET_CAUSE_FUNC` and the concrete getter functions of
`_errortype.py` / `errormain.py`) are not part of the sampled sources: they
are modelled as an explicit environment (`HintEnv`, `DiagEnv`) that the
embedded methods take as a parameter, so every theorem quantifies over all
behaviours of those collaborators unless it says otherwise.

Piths (subject values), hints, signs and callables are opaque type
parameters `V`, `Hint`, `Sign`, `F`.
-/

/-- Embedding of `beartype.roar._roarexc._BeartypeCallHintPepRaiseException`:
the exception raised by the diagnosis subsystem, carrying its message. -/
structure BeartypeCallHintPepRaiseException where
  message : String
deriving DecidableEq

/-- The collaborator functions imported by `_errorsleuth.py` from modules
outside the sampled sources, bundled as an abstract environment.
Membership tests `sign in HINT_SIGNS_...` are modelled as Boolean
characteristic functions; `isinstance(hint, tuple)` as `isinstance_tuple`;
Python `repr` on hints as `hint_repr`. -/
structure HintEnv (Hint Sign : Type) where
  sanify_hint_child : Hint → String → Hint
  is_hint_pep : Hint → Bool
  get_hint_pep_sign : Hint → Sign
  get_hint_pep_args : Hint → List Hint
  is_hint_pep_args : Hint → Bool
  is_hint_ignorable : Hint → Bool
  isinstance_tuple : Hint → Bool
  HINT_SIGNS_ORIGIN_ISINSTANCEABLE : Sign → Bool
  HINT_SIGNS_SUPPORTED_DEEP : Sign → Bool
  hint_repr : Hint → String

/-- Embedding of the `CauseSleuth` instance state: the eight slots declared
in `__slots__` of `_errorsleuth.py`. -/
structure CauseSleuth (V Hint Sign F : Type) where
  func : F
  pith : V
  cause_indent : String
  exception_prefix : String
  random_int : Option Int
  hint_sign : Option Sign
  hint_childs : Option (List Hint)
  _hint : Hint

/-- The getter functions a `CauseSleuth` can defer to: the two untagged-hint
getters and the shallow-origin getter of `_errortype.py`, and the sign-keyed
dispatch table `PEP_HINT_SIGN_TO_GET_CAUSE_FUNC` of `errormain.py`. All live
outside the sampled sources and are abstract here. -/
structure DiagEnv (V Hint Sign F : Type) where
  get_cause_or_none_instance_types_tuple : CauseSleuth V Hint Sign F → Option String
  get_cause_or_none_instance_type : CauseSleuth V Hint Sign F → Option String
  get_cause_or_none_type_instance_origin : CauseSleuth V Hint Sign F → Option String
  PEP_HINT_SIGN_TO_GET_CAUSE_FUNC : Sign → Option (CauseSleuth V Hint Sign F → Option String)

variable {V Hint Sign F : Type}

/-- The `hint` property getter of `CauseSleuth`: returns `self._hint`. -/
def CauseSleuth.hint (s : CauseSleuth V Hint Sign F) : Hint :=
  s._hint

/-- The `hint` property setter of `CauseSleuth`: sanitizes the assigned hint
via `sanify_hint_child`, then, if the sanitized hint is PEP-compliant, sets
`hint_sign` and `hint_childs` from it, and finally stores the sanitized hint
in `_hint`. -/
def CauseSleuth.set_hint (env : HintEnv Hint Sign) (s : CauseSleuth V Hint Sign F)
    (hint : Hint) : CauseSleuth V Hint Sign F :=
  let hint := env.sanify_hint_child hint s.exception_prefix
  if env.is_hint_pep hint then
    { s with
      hint_sign := some (env.get_hint_pep_sign hint)
      hint_childs := some (env.get_hint_pep_args hint)
      _hint := hint }
  else
    { s with _hint := hint }

/-- Embedding of `CauseSleuth.__init__`: stores the five plain parameters,
nullifies `hint_sign` and `hint_childs`, then classifies the passed hint by
assigning to the `hint` property (i.e. running the setter). -/
def CauseSleuth.init (env : HintEnv Hint Sign) (func : F) (pith : V) (hint : Hint)
    (cause_indent : String) (ep : String) (random_int : Option Int) :
    CauseSleuth V Hint Sign F :=
  CauseSleuth.set_hint env
    { func := func
      pith := pith
      cause_indent := cause_indent
      exception_prefix := ep
      random_int := random_int
      hint_sign := none
      hint_childs := none
      _hint := hint }
    hint

/-- The frozen set `CauseSleuth._INIT_PARAM_NAMES`: names of the parameters
accepted by `__init__`, against which `permute` validates keyword names. -/
def CauseSleuth._INIT_PARAM_NAMES : List String :=
  ["cause_indent", "exception_prefix", "func", "hint", "pith", "random_int"]

/-- The `__slots__` tuple of `CauseSleuth`: the names of the instance
variables actually existing on a `CauseSleuth` object. -/
def CauseSleuth.SLOTS : List String :=
  ["cause_indent", "exception_prefix", "func", "hint_sign", "hint_childs",
   "pith", "random_int", "_hint"]

/-- The message of the exception raised by `get_cause_or_none` when a sign
has no registered getter, from the f-string in `_errorsleuth.py`: it embeds
the exception prefix and `repr(self.hint)`. -/
def unsupported_message (ep hintRepr : String) : String :=
  ep ++ " type hint " ++ hintRepr ++
    " unsupported (i.e., no \"get_cause_or_none_\"-prefixed getter function defined for this category of hint)."

/-- The message of the exception raised by `permute` on an unrecognized
keyword name, from the f-string in `_errorsleuth.py` (the leading
`self.__class__` rendering is abbreviated to the class name). -/
def permute_unrecognized_message (arg_name : String) : String :=
  "CauseSleuth.__init__() parameter " ++ arg_name ++ " unrecognized."

/-- Embedding of `CauseSleuth.get_cause_or_none`: the Cause Dispatcher.
Mirrors the if/elif chain of the source: ignorable hints short-circuit to
`None`; untagged hints defer to the tuple-union or single-class getter;
tagged hints defer to the shallow-origin getter when the sign originates
from an isinstanceable type and the hint is unsubscripted or the sign is not
deeply supported; all remaining tagged hints are looked up in the dispatch
table, raising when no getter is registered. -/
def CauseSleuth.get_cause_or_none (env : HintEnv Hint Sign) (diag : DiagEnv V Hint Sign F)
    (s : CauseSleuth V Hint Sign F) :
    Except BeartypeCallHintPepRaiseException (Option String) :=
  if env.is_hint_ignorable s.hint then
    Except.ok none
  else
    match s.hint_sign with
    | none =>
      if env.isinstance_tuple s.hint then
        Except.ok (diag.get_cause_or_none_instance_types_tuple s)
      else
        Except.ok (diag.get_cause_or_none_instance_type s)
    | some sign =>
      if env.HINT_SIGNS_ORIGIN_ISINSTANCEABLE sign
          && (!env.is_hint_pep_args s.hint || !env.HINT_SIGNS_SUPPORTED_DEEP sign) then
        Except.ok (diag.get_cause_or_none_type_instance_origin s)
      else
        match diag.PEP_HINT_SIGN_TO_GET_CAUSE_FUNC sign with
        | some f => Except.ok (f s)
        | none =>
          Except.error ⟨unsupported_message s.exception_prefix (env.hint_repr s.hint)⟩

/-- A `**kwargs` dictionary as passed to `CauseSleuth.permute`: one optional
override per recognized `__init__` parameter name, plus the (ordered) names
of any further keyword arguments whose name is none of the six recognized
ones. Values of such unrecognized keywords are irrelevant: `permute` raises
on their name before reading any value. -/
structure PermuteKwargs (V Hint F : Type) where
  func : Option F := none
  pith : Option V := none
  hint : Option Hint := none
  cause_indent : Option String := none
  exception_prefix : Option (String) := none
  random_int : Option (Option Int) := none
  extra_names : List String := []

/-- The keys of the `**kwargs` dictionary, as iterated by `permute`. -/
def PermuteKwargs.names (k : PermuteKwargs V Hint F) : List String :=
  (if k.func.isSome then ["func"] else []) ++
  (if k.pith.isSome then ["pith"] else []) ++
  (if k.hint.isSome then ["hint"] else []) ++
  (if k.cause_indent.isSome then ["cause_indent"] else []) ++
  (if k.exception_prefix.isSome then ["exception_prefix"] else []) ++
  (if k.random_int.isSome then ["random_int"] else []) ++
  k.extra_names

/-- Whether an embedded method call raised. -/
def isRaise : Except ε α → Bool
  | Except.error _ => true
  | Except.ok _ => false

/-- Embedding of `CauseSleuth.permute`. The first component is the outcome
(the freshly constructed copy, or the exception raised on the first keyword
name that is not in `_INIT_PARAM_NAMES`); the second component is the state
of `self` after the call, tracking every assignment to `self` performed by
the source body — there are none, so it is the receiver unchanged. Missing
parameters default to the receiver's current values (`getattr(self, name)`,
which for the name `hint` reads the `hint` property, i.e. `_hint`), and the
copy is built by calling `__init__` on the merged arguments. -/
def CauseSleuth.permute (env : HintEnv Hint Sign) (s : CauseSleuth V Hint Sign F)
    (kwargs : PermuteKwargs V Hint F) :
    Except BeartypeCallHintPepRaiseException (CauseSleuth V Hint Sign F) ×
      CauseSleuth V Hint Sign F :=
  ((match kwargs.names.find? (fun n => !(CauseSleuth._INIT_PARAM_NAMES.contains n)) with
    | some arg_name => Except.error ⟨permute_unrecognized_message arg_name⟩
    | none =>
      Except.ok (CauseSleuth.init env
        (kwargs.func.getD s.func)
        (kwargs.pith.getD s.pith)
        (kwargs.hint.getD s.hint)
        (kwargs.cause_indent.getD s.cause_indent)
        (kwargs.exception_prefix.getD s.exception_prefix)
        (kwargs.random_int.getD s.random_int))),
   s)

/-- Whether the character list `needle` is a leading segment of `hay`. -/
def starts_with : List Char → List Char → Bool
  | [], _ => true
  | _ :: _, [] => false
  | a :: as, b :: bs => a == b && starts_with as bs

/-- Whether the character list `needle` occurs contiguously in `hay`. -/
def contains_chars (needle : List Char) : List Char → Bool
  | [] => starts_with needle []
  | b :: rest => starts_with needle (b :: rest) || contains_chars needle rest

/-- Whether `needle` is a literal substring of `hay`. -/
def string_has_sub (hay needle : String) : Bool :=
  contains_chars needle.data hay.data

/-- A concrete collaborator environment over string-named hints and signs,
used to instantiate the theorems below on explicit inputs. The normalizer
is the identity; the hint named ListInt is a subscripted list hint of sign
List, List the unsubscripted form of the same sign, FrobHint a hint of the
sign frobnicate (a sign with no registered getter whose hints print as
FrobHint), Any the ignorable hint, tup a tuple union and int a plain
class. -/
def demoEnv : HintEnv String String where
  sanify_hint_child h _ := h
  is_hint_pep h := h == "ListInt" || h == "List" || h == "FrobHint"
  get_hint_pep_sign h := if h == "FrobHint" then "frobnicate" else "List"
  get_hint_pep_args h := if h == "ListInt" then ["int"] else []
  is_hint_pep_args h := h == "ListInt"
  is_hint_ignorable h := h == "Any"
  isinstance_tuple h := h == "tup"
  HINT_SIGNS_ORIGIN_ISINSTANCEABLE s := s == "List"
  HINT_SIGNS_SUPPORTED_DEEP s := s == "List"
  hint_repr h := h

/-- A concrete diagnoser catalog matching `demoEnv`: the dispatch table
registers a getter for the sign List only; in particular the sign
frobnicate has no registered getter. -/
def demoDiag : DiagEnv Nat String String Unit where
  get_cause_or_none_instance_types_tuple _ := some "tuple union diagnosis"
  get_cause_or_none_instance_type _ := some "plain class diagnosis"
  get_cause_or_none_type_instance_origin _ := some "shallow origin diagnosis"
  PEP_HINT_SIGN_TO_GET_CAUSE_FUNC s :=
    if s == "List" then some (fun _ => some "deep list diagnosis") else none

/-- A diagnoser catalog whose four getter families return four pairwise
distinct diagnoses, distinguishing which family `get_cause_or_none`
deferred to. -/
def probeDiag (V Hint Sign F : Type) : DiagEnv V Hint Sign F where
  get_cause_or_none_instance_types_tuple _ := some "probe tuple"
  get_cause_or_none_instance_type _ := some "probe class"
  get_cause_or_none_type_instance_origin _ := some "probe origin"
  PEP_HINT_SIGN_TO_GET_CAUSE_FUNC _ := some (fun _ => some "probe table")

theorem starts_with_append (n post : List Char) : starts_with n (n ++ post) = true := by
  induction n with
  | nil => rfl
  | cons a as ih => simp [starts_with, ih]

theorem contains_chars_of_append (pre n post : List Char) :
    contains_chars n (pre ++ (n ++ post)) = true := by
  induction pre with
  | nil =>
    cases hnp : n ++ post with
    | nil =>
      rcases List.append_eq_nil.mp hnp with ⟨hn, _⟩
      subst hn
      simp [contains_chars, starts_with]
    | cons b rest =>
      have h1 : contains_chars n (b :: rest) =
          (starts_with n (b :: rest) || contains_chars n rest) := rfl
      rw [List.nil_append, h1, ← hnp, starts_with_append]
      simp
  | cons a pre ih =>
    have h1 : contains_chars n (a :: (pre ++ (n ++ post))) =
        (starts_with n (a :: (pre ++ (n ++ post))) || contains_chars n (pre ++ (n ++ post))) :=
      rfl
    rw [List.cons_append, h1, ih]
    simp

theorem string_has_sub_of_split (pre mid post : String) :
    string_has_sub (pre ++ mid ++ post) mid = true := by
  unfold string_has_sub
  have hdata : (pre ++ mid ++ post).data = pre.data ++ (mid.data ++ post.data) := by
    simp [String.data_append]
  rw [hdata]
  exact contains_chars_of_append _ _ _

theorem unsupported_message_has_repr (ep r : String) :
    string_has_sub (unsupported_message ep r) r = true :=
  string_has_sub_of_split (ep ++ " type hint ") r
    " unsupported (i.e., no \"get_cause_or_none_\"-prefixed getter function defined for this category of hint)."

/-- Claim C1 (counterexample): the unsupported-sign raise does not embed the
sign identifier in the message; it embeds `repr(self.hint)`. Here a Cause
Context whose normalized hint has sign frobnicate, is not ignorable, is not
dispatched shallowly, and whose sign has no registered getter, makes
`get_cause_or_none` raise, yet the raised message does not contain the
literal substring frobnicate because the repr of the hint (FrobHint) does
not. -/
theorem c1_counterexample :
    (CauseSleuth.init demoEnv () (0 : Nat) "FrobHint" "" "pfx" none).hint_sign =
        some "frobnicate" ∧
    demoEnv.is_hint_ignorable
        (CauseSleuth.init demoEnv () (0 : Nat) "FrobHint" "" "pfx" none)._hint = false ∧
    (demoEnv.HINT_SIGNS_ORIGIN_ISINSTANCEABLE "frobnicate"
        && (!demoEnv.is_hint_pep_args
              (CauseSleuth.init demoEnv () (0 : Nat) "FrobHint" "" "pfx" none)._hint
            || !demoEnv.HINT_SIGNS_SUPPORTED_DEEP "frobnicate")) = false ∧
    demoDiag.PEP_HINT_SIGN_TO_GET_CAUSE_FUNC "frobnicate" = none ∧
    CauseSleuth.get_cause_or_none demoEnv demoDiag
        (CauseSleuth.init demoEnv () (0 : Nat) "FrobHint" "" "pfx" none) =
      Except.error ⟨unsupported_message "pfx" "FrobHint"⟩ ∧
    string_has_sub (unsupported_message "pfx" "FrobHint") "frobnicate" = false :=
  ⟨by decide, by decide, by decide, rfl, rfl, by decide⟩

/-- Claim C1 (amended): for every Cause Context whose hint is not ignorable,
is tagged with a sign that is not dispatched shallowly, and whose sign has
no registered getter in the dispatch table, `get_cause_or_none` raises
`_BeartypeCallHintPepRaiseException` whose message embeds the exception
prefix and the repr of the (normalized) hint — not the sign identifier —
so the message contains the repr of the hint as a literal substring (and
hence contains frobnicate exactly when the prefix or hint repr does). -/
theorem c1_unsupported_raises_hint_repr (env : HintEnv Hint Sign)
    (diag : DiagEnv V Hint Sign F) (s : CauseSleuth V Hint Sign F) (sign : Sign)
    (hig : env.is_hint_ignorable s._hint = false)
    (hsign : s.hint_sign = some sign)
    (hshallow : (env.HINT_SIGNS_ORIGIN_ISINSTANCEABLE sign
        && (!env.is_hint_pep_args s._hint || !env.HINT_SIGNS_SUPPORTED_DEEP sign)) = false)
    (htable : diag.PEP_HINT_SIGN_TO_GET_CAUSE_FUNC sign = none) :
    CauseSleuth.get_cause_or_none env diag s =
      Except.error ⟨unsupported_message s.exception_prefix (env.hint_repr s._hint)⟩ ∧
    string_has_sub (unsupported_message s.exception_prefix (env.hint_repr s._hint))
      (env.hint_repr s._hint) = true := by
  constructor
  · simp [CauseSleuth.get_cause_or_none, CauseSleuth.hint, hig, hsign, hshallow, htable]
  · exact unsupported_message_has_repr _ _

/-- Witness for C1 (amended), at a hint whose repr does contain frobnicate:
with exception prefix pfx and a tagged unsupported hint printing as
FrobHint, `get_cause_or_none` raises with exactly the message built from
the prefix and the hint repr. -/
theorem c1_unsupported_raises_hint_repr_witness :
    CauseSleuth.get_cause_or_none demoEnv demoDiag
        (CauseSleuth.init demoEnv () (0 : Nat) "FrobHint" "" "pfx" none) =
      Except.error ⟨unsupported_message "pfx" "FrobHint"⟩ ∧
    string_has_sub (unsupported_message "pfx" "FrobHint") "FrobHint" = true :=
  c1_unsupported_raises_hint_repr demoEnv demoDiag
    (CauseSleuth.init demoEnv () (0 : Nat) "FrobHint" "" "pfx" none) "frobnicate"
    (by decide) (by decide) (by decide) rfl

/-- Claim C2: a Cause Context whose (normalized) hint is ignorable makes
`get_cause_or_none` return `None` immediately, for every behaviour of the
diagnoser catalog and dispatch table and for every subject value: no getter
is consulted and the result does not depend on the pith. -/
theorem c2_ignorable_returns_none (env : HintEnv Hint Sign) (diag : DiagEnv V Hint Sign F)
    (s : CauseSleuth V Hint Sign F) (v : V)
    (hig : env.is_hint_ignorable s._hint = true) :
    CauseSleuth.get_cause_or_none env diag { s with pith := v } = Except.ok none := by
  simp [CauseSleuth.get_cause_or_none, CauseSleuth.hint, hig]

/-- Witness for C2: the ignorable hint Any yields `None` regardless of the
diagnosers and of the subject. -/
theorem c2_ignorable_returns_none_witness :
    CauseSleuth.get_cause_or_none demoEnv demoDiag
      { CauseSleuth.init demoEnv () (0 : Nat) "Any" "" "pfx" none with pith := 99 } =
      Except.ok none :=
  c2_ignorable_returns_none demoEnv demoDiag
    (CauseSleuth.init demoEnv () (0 : Nat) "Any" "" "pfx" none) 99 (by decide)

/-- Claim C3: a non-ignorable Cause Context whose hint is untagged
(`hint_sign` is `None`) is delegated by `get_cause_or_none` to exactly one
of two getters: the tuple-union getter when the hint is a tuple, and the
single-class getter otherwise — for every behaviour of the diagnoser
catalog, and these two cases exhaust the untagged path. -/
theorem c3_untagged_dispatch (env : HintEnv Hint Sign) (s : CauseSleuth V Hint Sign F)
    (hig : env.is_hint_ignorable s._hint = false) (hsign : s.hint_sign = none) :
    (env.isinstance_tuple s._hint = true →
      ∀ diag : DiagEnv V Hint Sign F,
        CauseSleuth.get_cause_or_none env diag s =
          Except.ok (diag.get_cause_or_none_instance_types_tuple s)) ∧
    (env.isinstance_tuple s._hint = false →
      ∀ diag : DiagEnv V Hint Sign F,
        CauseSleuth.get_cause_or_none env diag s =
          Except.ok (diag.get_cause_or_none_instance_type s)) := by
  constructor <;> intro ht diag <;>
    simp [CauseSleuth.get_cause_or_none, CauseSleuth.hint, hig, hsign, ht]

/-- Witness for C3: the tuple-union hint tup goes to the tuple-union getter.
-/
theorem c3_untagged_dispatch_witness :
    CauseSleuth.get_cause_or_none demoEnv demoDiag
        (CauseSleuth.init demoEnv () (0 : Nat) "tup" "" "pfx" none) =
      Except.ok (some "tuple union diagnosis") :=
  (c3_untagged_dispatch demoEnv (CauseSleuth.init demoEnv () (0 : Nat) "tup" "" "pfx" none)
    (by decide) (by decide)).1 (by decide) demoDiag

/-- Claim C4: a non-ignorable Cause Context tagged with sign `sign` is
delegated to the shallow-origin getter exactly when the sign is in the
isinstanceable-origin set and the hint is unsubscripted or the sign is not
deeply supported; in every other tagged case `get_cause_or_none` looks the
sign up in the dispatch table (running the registered getter, or raising
when none is registered). -/
theorem c4_tagged_shallow_iff (env : HintEnv Hint Sign) (s : CauseSleuth V Hint Sign F)
    (sign : Sign) (hig : env.is_hint_ignorable s._hint = false)
    (hsign : s.hint_sign = some sign) :
    ((env.HINT_SIGNS_ORIGIN_ISINSTANCEABLE sign
        && (!env.is_hint_pep_args s._hint || !env.HINT_SIGNS_SUPPORTED_DEEP sign)) = true ↔
      ∀ diag : DiagEnv V Hint Sign F,
        CauseSleuth.get_cause_or_none env diag s =
          Except.ok (diag.get_cause_or_none_type_instance_origin s)) ∧
    ((env.HINT_SIGNS_ORIGIN_ISINSTANCEABLE sign
        && (!env.is_hint_pep_args s._hint || !env.HINT_SIGNS_SUPPORTED_DEEP sign)) = false →
      ∀ diag : DiagEnv V Hint Sign F,
        CauseSleuth.get_cause_or_none env diag s =
          (match diag.PEP_HINT_SIGN_TO_GET_CAUSE_FUNC sign with
           | some f => Except.ok (f s)
           | none => Except.error
               ⟨unsupported_message s.exception_prefix (env.hint_repr s._hint)⟩)) := by
  constructor
  · constructor
    · intro hc diag
      simp [CauseSleuth.get_cause_or_none, CauseSleuth.hint, hig, hsign, hc]
    · intro hall
      cases hc : (env.HINT_SIGNS_ORIGIN_ISINSTANCEABLE sign
          && (!env.is_hint_pep_args s._hint || !env.HINT_SIGNS_SUPPORTED_DEEP sign)) with
      | true => rfl
      | false =>
        exfalso
        have h2 := hall (probeDiag V Hint Sign F)
        simp [CauseSleuth.get_cause_or_none, CauseSleuth.hint, hig, hsign, hc,
          probeDiag] at h2
  · intro hc diag
    simp [CauseSleuth.get_cause_or_none, CauseSleuth.hint, hig, hsign, hc]

/-- Witness for C4: the unsubscripted isinstanceable-origin hint List is
dispatched shallowly. -/
theorem c4_tagged_shallow_iff_witness :
    CauseSleuth.get_cause_or_none demoEnv demoDiag
        (CauseSleuth.init demoEnv () (0 : Nat) "List" "" "pfx" none) =
      Except.ok (some "shallow origin diagnosis") :=
  (c4_tagged_shallow_iff demoEnv
      (CauseSleuth.init demoEnv () (0 : Nat) "List" "" "pfx" none) "List"
      (by decide) (by decide)).1.mp (by decide) demoDiag

/-- Claim C5: deriving a context by overriding only the pith yields a new
context identical to the original in every other field: the same func,
cause_indent, exception label and random_int, the same stored (normalized)
hint, and hence the same hint_sign and hint_childs, with the pith replaced
by the override. Quantified over every context produced by `__init__`;
the hypothesis is the idempotence of the normalizer promised by the spec
(`sanify_hint_child` lives outside the sampled sources), at the point
where `permute` re-sanitizes the already-sanitized hint. -/
theorem c5_permute_pith_isolation (env : HintEnv Hint Sign) (f : F) (p : V) (h : Hint)
    (ci ep : String) (ri : Option Int) (v : V)
    (hidem : env.sanify_hint_child (env.sanify_hint_child h ep) ep =
      env.sanify_hint_child h ep) :
    (CauseSleuth.permute env (CauseSleuth.init env f p h ci ep ri) { pith := some v }).1 =
      Except.ok { CauseSleuth.init env f p h ci ep ri with pith := v } := by
  by_cases hpep : env.is_hint_pep (env.sanify_hint_child h ep) = true
  all_goals
    simp [CauseSleuth.permute, PermuteKwargs.names, CauseSleuth._INIT_PARAM_NAMES,
      CauseSleuth.init, CauseSleuth.set_hint, CauseSleuth.hint, hidem, hpep]

/-- Witness for C5: overriding the pith of a context for the plain class
int replaces the subject and nothing else. -/
theorem c5_permute_pith_isolation_witness :
    (CauseSleuth.permute demoEnv
        (CauseSleuth.init demoEnv () (0 : Nat) "int" "" "pfx" none)
        { pith := some 7 }).1 =
      Except.ok { CauseSleuth.init demoEnv () (0 : Nat) "int" "" "pfx" none with pith := 7 } :=
  c5_permute_pith_isolation demoEnv () 0 "int" "" "pfx" none 7 (by decide)

/-- Claim C6: `permute` raises exactly on those keyword-argument sets that
contain a name outside `_INIT_PARAM_NAMES`: the raise outcome equals the
existence of such a name among the passed keys, for every receiver and
every collaborator environment (in particular it is decided before the new
context is constructed — the right-hand side depends on the keyword names
alone). -/
theorem c6_permute_raises_iff_unrecognized (env : HintEnv Hint Sign)
    (s : CauseSleuth V Hint Sign F) (kwargs : PermuteKwargs V Hint F) :
    isRaise (CauseSleuth.permute env s kwargs).1 =
      kwargs.names.any (fun n => !(CauseSleuth._INIT_PARAM_NAMES.contains n)) := by
  unfold CauseSleuth.permute
  cases hfind : kwargs.names.find? (fun n => !(CauseSleuth._INIT_PARAM_NAMES.contains n)) with
  | none =>
    simp only [hfind, isRaise]
    have hall := List.find?_eq_none.mp hfind
    symm
    rw [List.any_eq_false]
    intro x hx
    have := hall x hx
    simpa using this
  | some a =>
    simp only [hfind, isRaise]
    symm
    rw [List.any_eq_true]
    refine ⟨a, List.mem_of_find?_eq_some hfind, ?_⟩
    have hpa := List.find?_some hfind
    simpa using hpa

/-- Claim C7: `permute` never mutates its receiver: the source body of
`permute` contains no assignment to `self` (it only validates keyword
names, fills defaults into the keyword dictionary, and constructs a fresh
instance), so the state of the receiver after any call — raising or not —
is the receiver unchanged, and every field compares equal. -/
theorem c7_permute_never_mutates (env : HintEnv Hint Sign)
    (s : CauseSleuth V Hint Sign F) (kwargs : PermuteKwargs V Hint F) :
    (CauseSleuth.permute env s kwargs).2 = s ∧
    ((CauseSleuth.permute env s kwargs).2).pith = s.pith ∧
    ((CauseSleuth.permute env s kwargs).2)._hint = s._hint ∧
    ((CauseSleuth.permute env s kwargs).2).hint_sign = s.hint_sign :=
  ⟨rfl, rfl, rfl, rfl⟩

/-- Claim C8: every context construction normalizes the hint before
classifying it: `__init__` stores `sanify_hint_child` of the passed hint in
`_hint` and extracts `hint_sign` and `hint_childs` from that sanitized
form; and `permute` builds its copy through `__init__` on the merged
arguments (or raises), so a diagnoser can only ever receive a context whose
stored hint went through the normalizer before classification. -/
theorem c8_hint_normalized_then_classified (env : HintEnv Hint Sign) (f : F) (p : V)
    (h : Hint) (ci ep : String) (ri : Option Int) :
    ((CauseSleuth.init env f p h ci ep ri)._hint = env.sanify_hint_child h ep) ∧
    ((CauseSleuth.init env f p h ci ep ri).hint_sign =
        if env.is_hint_pep (env.sanify_hint_child h ep) then
          some (env.get_hint_pep_sign (env.sanify_hint_child h ep)) else none) ∧
    ((CauseSleuth.init env f p h ci ep ri).hint_childs =
        if env.is_hint_pep (env.sanify_hint_child h ep) then
          some (env.get_hint_pep_args (env.sanify_hint_child h ep)) else none) ∧
    (∀ (s : CauseSleuth V Hint Sign F) (kwargs : PermuteKwargs V Hint F),
      (CauseSleuth.permute env s kwargs).1 =
          Except.ok (CauseSleuth.init env (kwargs.func.getD s.func) (kwargs.pith.getD s.pith)
            (kwargs.hint.getD s.hint) (kwargs.cause_indent.getD s.cause_indent)
            (kwargs.exception_prefix.getD s.exception_prefix)
            (kwargs.random_int.getD s.random_int)) ∨
        isRaise (CauseSleuth.permute env s kwargs).1 = true) := by
  refine ⟨?_, ?_, ?_, ?_⟩
  · by_cases hpep : env.is_hint_pep (env.sanify_hint_child h ep) = true <;>
      simp [CauseSleuth.init, CauseSleuth.set_hint, hpep]
  · by_cases hpep : env.is_hint_pep (env.sanify_hint_child h ep) = true <;>
      simp [CauseSleuth.init, CauseSleuth.set_hint, hpep]
  · by_cases hpep : env.is_hint_pep (env.sanify_hint_child h ep) = true <;>
      simp [CauseSleuth.init, CauseSleuth.set_hint, hpep]
  · intro s kwargs
    unfold CauseSleuth.permute
    cases hfind : kwargs.names.find?
        (fun n => !(CauseSleuth._INIT_PARAM_NAMES.contains n)) with
    | none => left; rfl
    | some a => right; rfl

/-- Claim C9: on a freshly constructed context, `hint_sign` and
`hint_childs` are jointly populated or jointly absent: both are extracted
when the normalized hint is PEP-compliant (the childs possibly the empty
tuple) and both stay `None` otherwise, so `hint_sign` is `None` exactly
when the hint is untagged. -/
theorem c9_sign_childs_jointly (env : HintEnv Hint Sign) (f : F) (p : V) (h : Hint)
    (ci ep : String) (ri : Option Int) :
    ((CauseSleuth.init env f p h ci ep ri : CauseSleuth V Hint Sign F).hint_sign = none ↔
        env.is_hint_pep ((CauseSleuth.init env f p h ci ep ri)._hint) = false) ∧
    ((CauseSleuth.init env f p h ci ep ri).hint_sign.isSome =
        (CauseSleuth.init env f p h ci ep ri).hint_childs.isSome) ∧
    (env.is_hint_pep ((CauseSleuth.init env f p h ci ep ri)._hint) = true →
      (CauseSleuth.init env f p h ci ep ri).hint_sign =
          some (env.get_hint_pep_sign ((CauseSleuth.init env f p h ci ep ri)._hint)) ∧
      (CauseSleuth.init env f p h ci ep ri).hint_childs =
          some (env.get_hint_pep_args ((CauseSleuth.init env f p h ci ep ri)._hint))) ∧
    (env.is_hint_pep ((CauseSleuth.init env f p h ci ep ri)._hint) = false →
      (CauseSleuth.init env f p h ci ep ri).hint_sign = none ∧
      (CauseSleuth.init env f p h ci ep ri).hint_childs = none) := by
  by_cases hpep : env.is_hint_pep (env.sanify_hint_child h ep) = true <;>
    simp [CauseSleuth.init, CauseSleuth.set_hint, hpep]

/-- Witness for C9: the subscripted hint ListInt is classified with sign
List and child tuple (int). -/
theorem c9_sign_childs_jointly_witness :
    (CauseSleuth.init demoEnv () (0 : Nat) "ListInt" "" "pfx" none).hint_sign =
        some "List" ∧
    (CauseSleuth.init demoEnv () (0 : Nat) "ListInt" "" "pfx" none).hint_childs =
        some ["int"] :=
  (c9_sign_childs_jointly demoEnv () 0 "ListInt" "" "pfx" none).2.2.1 (by decide)

/-- Claim C10: `permute` validates keyword names against the fixed
`_INIT_PARAM_NAMES` set, not against the instance variables in `__slots__`:
the name hint is accepted although the stored slot is named `_hint`, while
the names hint_sign and hint_childs raise although both are slots existing
on the instance. -/
theorem c10_permute_validates_init_names :
    ("hint" ∈ CauseSleuth._INIT_PARAM_NAMES ∧ "hint" ∉ CauseSleuth.SLOTS ∧
      "_hint" ∈ CauseSleuth.SLOTS ∧
      "hint_sign" ∈ CauseSleuth.SLOTS ∧ "hint_sign" ∉ CauseSleuth._INIT_PARAM_NAMES ∧
      "hint_childs" ∈ CauseSleuth.SLOTS ∧
      "hint_childs" ∉ CauseSleuth._INIT_PARAM_NAMES) ∧
    (∀ (env : HintEnv Hint Sign) (s : CauseSleuth V Hint Sign F) (h0 : Hint),
      isRaise (CauseSleuth.permute env s { hint := some h0 }).1 = false) ∧
    (∀ (env : HintEnv Hint Sign) (s : CauseSleuth V Hint Sign F),
      (CauseSleuth.permute env s { extra_names := ["hint_sign"] }).1 =
        Except.error ⟨permute_unrecognized_message "hint_sign"⟩) ∧
    (∀ (env : HintEnv Hint Sign) (s : CauseSleuth V Hint Sign F),
      (CauseSleuth.permute env s { extra_names := ["hint_childs"] }).1 =
        Except.error ⟨permute_unrecognized_message "hint_childs"⟩) :=
  ⟨by decide, fun env s h0 => rfl, fun env s => rfl, fun env s => rfl⟩
